import Mathlib

/-!
Verification development for the ForeverTicket / PrettyTickets client
application.  The TypeScript sources are shallowly embedded as pure Lean
functions: the React component state becomes an explicit record type,
each asynchronous external call (AI metadata, AI image, database save)
becomes a value supplied by an environment record, and every handler is
a pure function from the environment and the current state to the next
state together with the list of outbound calls it performed.
-/

namespace ForeverTicket

/-- JavaScript truthiness of a possibly-absent string
(`undefined`, `null` and `""` are falsy). -/
def strTruthy : Option String → Bool
  | none => false
  | some s => s ≠ ""

/-- `eventDetails` of `TicketData` (src: types.ts). -/
structure EventDetails where
  artistOrEvent : String
  venue : String
  date : String
  seatInfo : String
  personalMessage : String
deriving Repr, DecidableEq

/-- `visualTheme.typography` (src: types.ts). -/
structure Typography where
  headlineFont : String
  bodyFont : String
deriving Repr, DecidableEq

/-- `visualTheme` (src: types.ts). -/
structure VisualTheme where
  colorPalette : List String
  textures : List String
  typography : Typography
  moodKeywords : List String
  iconIdeas : List String
deriving Repr, DecidableEq

/-- `aiPrompts` (src: types.ts).  The response schema does not require this
object, and the orchestrator reads it with optional chaining
(`data.aiPrompts?.backgroundPrompt`), so the embedding wraps it in `Option`
at its use sites. -/
structure AiPrompts where
  backgroundPrompt : String
  ticketArtPrompt : String
deriving Repr, DecidableEq

/-- `giftCopy` (src: types.ts). -/
structure GiftCopy where
  ticketTitle : String
  tagline : String
  emotionalDescription : String
  giftMessage : String
deriving Repr, DecidableEq

/-- `layoutGuide.fontWeights` (src: types.ts). -/
structure FontWeights where
  eventName : String
  seatInfo : String
  extras : String
deriving Repr, DecidableEq

/-- `layoutGuide` (src: types.ts). -/
structure LayoutGuide where
  recommendedLayout : String
  hierarchyNotes : String
  fontWeights : FontWeights
deriving Repr, DecidableEq

/-- `TicketData` (src: types.ts).  `aiPrompts` is `Option` because the
JSON schema sent to the model does not list it as required and the app
reads it with `?.`. -/
structure TicketData where
  eventDetails : EventDetails
  visualTheme : VisualTheme
  aiPrompts : Option AiPrompts
  giftCopy : GiftCopy
  layoutGuide : LayoutGuide
deriving Repr, DecidableEq

/-- The component state of `App` (src: App.tsx, the `useState` hooks),
plus `urlId`, the id reflected in the page URL by `updateUrl`. -/
structure AppState where
  loading : Bool
  imageLoading : Bool
  ticketData : Option TicketData
  ticketImage : Option String
  ticketId : Option String
  error : Option String
  isEditing : Bool
  isCustomImage : Bool
  urlId : Option String
deriving Repr, DecidableEq

/-- Outbound calls a handler performs, in order. -/
inductive CallEvent where
  | metadataCall
  | imageCall (prompt : String)
  | saveCall (data : TicketData) (image : String)
deriving Repr, DecidableEq

/-- Outcomes of the asynchronous calls one `handleGenerate` run performs.
`generateTicketImage` never throws (its own catch returns `""`), so its
outcome is a plain string; `saveTicketToDb` may throw (transport failure)
or resolve to an id or to nothing. -/
structure GenEnv where
  metadataResult : Except String TicketData
  imageResult : String
  saveResult : Except String (Option String)
deriving Repr

/-- `err.message || "Something went wrong generating your ticket."`
(src: App.tsx catch clause of `handleGenerate`). -/
def surfacedError (msg : String) : String :=
  if msg = "" then "Something went wrong generating your ticket." else msg

/-- Truthiness of `data.aiPrompts?.backgroundPrompt`. -/
def promptTruthy : Option AiPrompts → Bool
  | none => false
  | some p => p.backgroundPrompt ≠ ""

/-- The `finalImage` value `handleGenerate` ends step 2 with
(src: App.tsx lines 76-87): the custom background when one was supplied,
else the AI image when a background prompt exists, else `""`. -/
def obtainedImage (env : GenEnv) (bgImage : Option String) (d : TicketData) : String :=
  if strTruthy bgImage then bgImage.getD ""
  else if promptTruthy d.aiPrompts then env.imageResult
  else ""

/-- `handleGenerate` (src: App.tsx lines 63-103), as a pure function of the
call outcomes and the state.  Mirrors the code line by line: the reset
prefix, step 1 (metadata, failure caught with `err.message` or the
fallback), step 2 (custom background adopted directly, else AI image when
a background prompt exists), step 3 (save only when `finalImage` is
non-empty, with `setTicketId`/`updateUrl` only when the returned id is
truthy), and the `finally` clearing `loading`. -/
def handleGenerate (env : GenEnv) (bgImage : Option String) (s : AppState) :
    AppState × List CallEvent :=
  let s0 := { s with loading := true, error := none, ticketData := none,
                     ticketImage := none, ticketId := none, isEditing := false }
  match env.metadataResult with
  | .error e => ({ s0 with error := some (surfacedError e), loading := false },
                 [.metadataCall])
  | .ok d =>
    let s1 := { s0 with ticketData := some d }
    let step2 : AppState × List CallEvent :=
      if strTruthy bgImage then
        ({ s1 with ticketImage := bgImage, isCustomImage := true }, [])
      else if promptTruthy d.aiPrompts then
        ({ s1 with ticketImage := some env.imageResult, isCustomImage := false },
         [.imageCall ((d.aiPrompts.map (·.backgroundPrompt)).getD "")])
      else (s1, [])
    let s2 := step2.1
    let finalImage := obtainedImage env bgImage d
    if finalImage ≠ "" then
      match env.saveResult with
      | .error e =>
          ({ s2 with error := some (surfacedError e), loading := false },
           .metadataCall :: step2.2 ++ [.saveCall d finalImage])
      | .ok r =>
          if strTruthy r then
            ({ s2 with ticketId := r, urlId := r, loading := false },
             .metadataCall :: step2.2 ++ [.saveCall d finalImage])
          else
            ({ s2 with loading := false },
             .metadataCall :: step2.2 ++ [.saveCall d finalImage])
    else ({ s2 with loading := false }, .metadataCall :: step2.2)

/-- The exact mood clause `handleMoodSelect` appends to the stored
background prompt (src: App.tsx line 126). -/
def moodPrompt (backgroundPrompt mood : String) : String :=
  backgroundPrompt ++ ". The visual style should be heavily inspired by the mood: "
    ++ mood ++ ". Make it distinct and artistic."

/-- Outcomes of the asynchronous calls one `handleMoodSelect` run performs. -/
structure MoodEnv where
  imageResult : String
  saveResult : Except String (Option String)
deriving Repr

/-- `handleMoodSelect` (src: App.tsx lines 122-147): no-op unless
`ticketData?.aiPrompts?.backgroundPrompt` is truthy; otherwise one image
request with the mood-augmented prompt, the image replaced, and — only when
an id is already held — a save whose truthy result replaces the id and the
URL.  A save failure is only logged (the image replacement stands). -/
def handleMoodSelect (env : MoodEnv) (mood : String) (s : AppState) :
    AppState × List CallEvent :=
  match s.ticketData with
  | none => (s, [])
  | some d =>
    match d.aiPrompts with
    | none => (s, [])
    | some p =>
      if p.backgroundPrompt = "" then (s, [])
      else
        let prompt := moodPrompt p.backgroundPrompt mood
        let s1 := { s with imageLoading := true, ticketImage := some env.imageResult,
                           isCustomImage := false }
        if strTruthy s.ticketId then
          match env.saveResult with
          | .error _ => ({ s1 with imageLoading := false },
                         [.imageCall prompt, .saveCall d env.imageResult])
          | .ok r =>
            if strTruthy r then
              ({ s1 with ticketId := r, urlId := r, imageLoading := false },
               [.imageCall prompt, .saveCall d env.imageResult])
            else
              ({ s1 with imageLoading := false },
               [.imageCall prompt, .saveCall d env.imageResult])
        else ({ s1 with imageLoading := false }, [.imageCall prompt])

/-- A row of the `tickets` table: the minted id, the metadata JSON and the
image, as passed by the two `saveTicketToDb(data, image)` call sites. -/
structure DbRow where
  id : String
  ticketData : TicketData
  imageUrl : String
deriving Repr, DecidableEq

/-- Modelled from the spec: `ticketService.ts` (`saveTicketToDb`) is not
among the sources; only its callers are.  The spec's Persistence Gateway
contract reads "`save(record) -> id`: upserts; if the in-memory record
carries an id, update that row, else insert and mint a new id."  Both call
sites (`handleGenerate` step 3 and `handleMoodSelect`) pass only
`(ticketData, imageUrl)`, and the `TicketData` type carries no id field,
so every call takes the insert branch: a fresh id (`fresh`, supplied by
the database) is minted and a new row appended.  Returns the minted id and
the new table contents. -/
def saveTicketToDb (db : List DbRow) (fresh : String) (d : TicketData)
    (image : String) : Option String × List DbRow :=
  (some fresh, db ++ [⟨fresh, d, image⟩])

/-- The environment of one `generateTicketMetadata` call
(src: geminiService.ts): the `text` of the model response, and the outcome
of `JSON.parse` on it when it is invoked. -/
structure MetadataEnv where
  responseText : Option String
  parsed : Except String TicketData
deriving Repr

/-- `generateTicketMetadata` (src: geminiService.ts lines 94-138), reduced
to its result semantics: when `response.text` is truthy the parse outcome
is returned (a parse exception propagates — the service's own catch merely
logs and rethrows), otherwise `Error("No text response from Gemini")` is
thrown. -/
def generateTicketMetadata (menv : MetadataEnv) : Except String TicketData :=
  if strTruthy menv.responseText then menv.parsed
  else .error "No text response from Gemini"

/-- One part of an image-model response (src: geminiService.ts):
either inline image data or plain text (a refusal). -/
inductive GenPart where
  | inlineData (data : String)
  | text (t : String)
deriving Repr, DecidableEq

/-- The environment of one `generateTicketImage` call: the request either
throws or yields a list of response parts. -/
structure ImageEnv where
  response : Except String (List GenPart)
deriving Repr

/-- The first `inlineData` part of the response, as found by the `for`
loop of `generateTicketImage`. -/
def firstInline : List GenPart → Option String
  | [] => none
  | .inlineData d :: _ => some d
  | .text _ :: rest => firstInline rest

/-- `generateTicketImage` (src: geminiService.ts lines 141-176): returns a
data URI built from the first inline-data part; when no part carries image
data (refusal text only, or an empty part list) the function throws
internally and its own catch converts this — like any other error — into
the empty string, never a raised error. -/
def generateTicketImage (env : ImageEnv) : String :=
  match env.response with
  | .error _ => ""
  | .ok parts =>
    match firstInline parts with
    | some d => "data:image/png;base64," ++ d
    | none => ""

/-- The background layer choice of `TicketCard`
(src: TicketCard.tsx lines 83-99): the image when `imageUrl` is truthy,
otherwise the solid gradient built from the two palette colors. -/
inductive Background where
  | image (url : String)
  | gradient (primary secondary : String)
deriving Repr, DecidableEq

/-- Which background `TicketCard` renders. -/
def ticketBackground (imageUrl : Option String) (primary secondary : String) :
    Background :=
  if strTruthy imageUrl then .image (imageUrl.getD "")
  else .gradient primary secondary

/-- `hay.includes(pat)` at a fixed position: `pat` is a character-wise
prefix of `cs`. -/
def charsAt : List Char → List Char → Bool
  | [], _ => true
  | _ :: _, [] => false
  | p :: ps, c :: cs => p = c && charsAt ps cs

/-- `hay.includes(pat)` (JavaScript `String.prototype.includes`). -/
def hasSub (pat : List Char) : List Char → Bool
  | [] => charsAt pat []
  | c :: cs => charsAt pat (c :: cs) || hasSub pat cs

/-- JavaScript `hay.includes(pat)` on Lean strings. -/
def strIncludes (hay pat : String) : Bool :=
  hasSub pat.toList hay.toList

/-- `s.toLowerCase()` for the ASCII range (the font keywords and the
seat-info keywords are all ASCII). -/
def strLower (s : String) : String :=
  String.mk (s.toList.map Char.toLower)

/-- The second argument of `getFontFamily` (src: TicketCard.tsx line 30):
`'headline' | 'body'`. -/
inductive FontRole where
  | headline
  | body
deriving Repr, DecidableEq

/-- `getFontFamily` (src: TicketCard.tsx lines 30-46): keyword lookup on
the lowercased hint (`fontName?.toLowerCase() || ''`), with the brand
defaults — Playfair Display for headlines and Montserrat for body text —
when nothing matches. -/
def getFontFamily (fontName : Option String) (role : FontRole) : String :=
  let lower := strLower (fontName.getD "")
  if strIncludes lower "playfair" then "font-[Playfair_Display]"
  else if strIncludes lower "cormorant" then "font-[Cormorant_Garamond]"
  else if strIncludes lower "marcellus" then "font-[Cormorant_Garamond]"
  else if strIncludes lower "cinzel" then "font-[Cinzel]"
  else if strIncludes lower "montserrat" then "font-[Montserrat]"
  else if strIncludes lower "nunito" then "font-[Nunito]"
  else if strIncludes lower "space" then "font-[Space_Grotesk]"
  else match role with
    | .headline => "font-[Playfair_Display]"
    | .body => "font-[Montserrat]"

/-- The supported font classes `getFontFamily` can produce. -/
def supportedFontClasses : List String :=
  ["font-[Playfair_Display]", "font-[Cormorant_Garamond]", "font-[Cinzel]",
   "font-[Montserrat]", "font-[Nunito]", "font-[Space_Grotesk]"]

/-- A hint contains one of the keywords `getFontFamily` recognizes
(checked on the lowercased hint, as in the source). -/
def recognizedFontKeyword (lower : String) : Bool :=
  strIncludes lower "playfair" || strIncludes lower "cormorant" ||
  strIncludes lower "marcellus" || strIncludes lower "cinzel" ||
  strIncludes lower "montserrat" || strIncludes lower "nunito" ||
  strIncludes lower "space"

/-- JavaScript regex `\w` / `[\w\d]`: `[A-Za-z0-9_]`. -/
def jsWordChar (c : Char) : Bool :=
  c.isAlpha || c.isDigit || c = '_'

/-- JavaScript regex `\s` restricted to the ASCII whitespace characters. -/
def jsSpace (c : Char) : Bool :=
  c = ' ' || c = '\t' || c = '\n' || c = '\r' ||
  c = Char.ofNat 11 || c = Char.ofNat 12

/-- Case-insensitive literal match (the `i` flag): when `pat` matches a
prefix of `cs` up to case, return the remaining characters. -/
def ciPrefix : List Char → List Char → Option (List Char)
  | [], cs => some cs
  | _ :: _, [] => none
  | p :: ps, c :: cs => if p.toLower = c.toLower then ciPrefix ps cs else none

/-- The common tail `\s*[:\-]?\s*([\w\d]+)` of the three seat regexes.
The three character classes are pairwise disjoint, so greedy matching is
exact: skip whitespace, one optional `:` or `-`, whitespace again, then
capture a maximal non-empty run of word characters. -/
def matchTail (cs : List Char) : Option String :=
  let cs1 := cs.dropWhile jsSpace
  let cs2 := match cs1 with
    | c :: rest => if c = ':' || c = '-' then rest else cs1
    | [] => []
  let cs3 := cs2.dropWhile jsSpace
  let cap := cs3.takeWhile jsWordChar
  if cap.isEmpty then none else some (String.mk cap)

/-- Try the alternation branches in order at one position; on a branch
whose keyword matches but whose tail fails, backtrack to the next branch
(JavaScript alternation semantics). -/
def tryAltsAt (alts : List (List Char)) (cs : List Char) : Option String :=
  alts.findSome? fun kw => (ciPrefix kw cs).bind matchTail

/-- Leftmost-match scan: try each start position left to right, as
`String.prototype.match` with a non-global regex does. -/
def regexFind (alts : List (List Char)) : List Char → Option String
  | [] => none
  | c :: cs =>
    match tryAltsAt alts (c :: cs) with
    | some r => some r
    | none => regexFind alts cs

/-- The branches of `(?:Section|Sec\.?|Sec)` in attempt order: the greedy
optional dot makes the middle branch try `"Sec."` before falling back to
`"Sec"` (which also subsumes the redundant third branch). -/
def secAlts : List (List Char) :=
  ["Section".toList, "Sec.".toList, "Sec".toList]

/-- The capture of `/(?:Section|Sec\.?|Sec)\s*[:\-]?\s*([\w\d]+)/i`
(src: TicketCard.tsx line 53). -/
def matchSec (info : String) : Option String :=
  regexFind secAlts info.toList

/-- The capture of `/(?:Row)\s*[:\-]?\s*([\w\d]+)/i`
(src: TicketCard.tsx line 54). -/
def matchRow (info : String) : Option String :=
  regexFind ["Row".toList] info.toList

/-- The capture of `/(?:Seat)\s*[:\-]?\s*([\w\d]+)/i`
(src: TicketCard.tsx line 55). -/
def matchSeat (info : String) : Option String :=
  regexFind ["Seat".toList] info.toList

/-- The tagged-union result of `parseSeatInfo`: `{sec, row, seat}` with
each component optional, or the `{raw}` fallback. -/
inductive SeatInfo where
  | structured (sec row seat : Option String)
  | raw (s : String)
deriving Repr, DecidableEq

/-- `parseSeatInfo` (src: TicketCard.tsx lines 51-59).  Captures of
`[\w\d]+` are never empty, so a capture is `none` exactly when its regex
failed to match, matching the `!sec && !row && !seat` truthiness test. -/
def parseSeatInfo (info : String) : SeatInfo :=
  let sec := matchSec info
  let row := matchRow info
  let seat := matchSeat info
  if sec.isNone && row.isNone && seat.isNone then .raw info
  else .structured sec row seat

/-- The payment/unlock state of `TicketDisplay`
(src: TicketDisplay.tsx `useState` hooks), plus the print documents opened
so far; each entry records the `forPrint` flag the hidden
`printable-ticket-source` was rendered with when the document was built. -/
structure DisplayState where
  isUnlocked : Bool
  isVerifying : Bool
  verificationError : Option String
  printedDocs : List Bool
deriving Repr, DecidableEq

/-- Browser conditions `handlePrint` checks: the hidden source element
exists, and the popup was not blocked. -/
structure PrintEnv where
  contentFound : Bool
  popupAllowed : Bool
deriving Repr

/-- The watermark overlay condition of `TicketCard`
(src: TicketCard.tsx line 117: `!forPrint && !hideWatermark`). -/
def watermarkVisible (forPrint hideWatermark : Bool) : Bool :=
  !forPrint && !hideWatermark

/-- `handlePrint` (src: TicketDisplay.tsx lines 256-301): returns
immediately unless `isUnlocked`; otherwise, when the source element exists
and the popup opens, duplicates the hidden source — rendered with
`forPrint = isUnlocked` — into a fresh print document. -/
def handlePrint (env : PrintEnv) (s : DisplayState) : DisplayState :=
  if !s.isUnlocked then s
  else if !env.contentFound then s
  else if !env.popupAllowed then s
  else { s with printedDocs := s.printedDocs ++ [s.isUnlocked] }

/-- The four spec states of the Payment/Unlock flow. -/
inductive UnlockPhase where
  | locked
  | verifying
  | unlocked
  | verificationFailed
deriving Repr, DecidableEq

/-- Which Payment/Unlock state the component flags encode. -/
def phase (s : DisplayState) : UnlockPhase :=
  if s.isUnlocked then .unlocked
  else if s.isVerifying then .verifying
  else if s.verificationError.isSome then .verificationFailed
  else .locked

/-!
Interleaving model of overlapping `handleGenerate` runs.  The browser
event loop runs the synchronous stretch between two `await`s atomically,
so one run of `handleGenerate` (success path, no custom background,
non-empty AI image, save returning an id) is the list of four atomic
segments below, cut at its three `await`s; two overlapping runs execute
some interleaving of their segment lists.
-/

/-- The synchronous prefix of `handleGenerate` up to
`await generateTicketMetadata` (src: App.tsx lines 64-69): the state
resets. -/
def genSeg0 (s : AppState) : AppState :=
  { s with loading := true, error := none, ticketData := none,
           ticketImage := none, ticketId := none, isEditing := false }

/-- From the metadata resolution to `await generateTicketImage`
(src: App.tsx lines 73-84): `setTicketData`. -/
def genSeg1 (d : TicketData) (s : AppState) : AppState :=
  { s with ticketData := some d }

/-- From the image resolution to `await saveTicketToDb`
(src: App.tsx lines 84-90): `setTicketImage`, `setIsCustomImage(false)`. -/
def genSeg2 (img : String) (s : AppState) : AppState :=
  { s with ticketImage := some img, isCustomImage := false }

/-- From the save resolution to the end of the handler
(src: App.tsx lines 90-101): `setTicketId`, `updateUrl`, and the
`finally` clearing `loading`. -/
def genSeg3 (tid : String) (s : AppState) : AppState :=
  { s with ticketId := some tid, urlId := some tid, loading := false }

/-- One `handleGenerate` run as its atomic segments. -/
def runScript (d : TicketData) (img tid : String) : List (AppState → AppState) :=
  [genSeg0, genSeg1 d, genSeg2 img, genSeg3 tid]

/-- Execute an interleaving of two runs: each schedule entry picks the
next pending segment of run 2 (`true`) or run 1 (`false`). -/
def execSched : List (AppState → AppState) → List (AppState → AppState) →
    List Bool → AppState → AppState
  | _, _, [], s => s
  | r1, r2, pick :: rest, s =>
    if pick then
      match r2 with
      | [] => execSched r1 [] rest s
      | f :: fs => execSched r1 fs rest (f s)
    else
      match r1 with
      | [] => execSched [] r2 rest s
      | f :: fs => execSched fs r2 rest (f s)

/-- A schedule is a complete interleaving of an `n1`-segment run and an
`n2`-segment run in which run 2 starts (its first segment executes) before
run 1 has finished — i.e. fewer than `n1` of run 1's segments precede run
2's start. -/
def validOverlap (n1 n2 : Nat) (sched : List Bool) : Bool :=
  sched.count false == n1 && sched.count true == n2 &&
    (sched.takeWhile (fun b => !b)).length < n1

/-- A concrete `TicketData` value used by concrete evaluations, tagged by
its artist/event field. -/
def mkSample (tag : String) : TicketData :=
  { eventDetails := ⟨tag, "Hall A", "Jan 1", "Sec 1 Row A Seat 1", "enjoy"⟩
    visualTheme := ⟨["#FF4FA3", "#C9A2FF", "#5AA6FF"], ["grain"],
                    ⟨"Playfair Display", "Montserrat"⟩, ["dreamy"], ["star"]⟩
    aiPrompts := some ⟨"a dreamy stage with lights", "holographic ticket art"⟩
    giftCopy := ⟨"A Night To Keep", "forever", "a keepsake", "with love"⟩
    layoutGuide := ⟨"centered", "title first", ⟨"bold", "medium", "light"⟩⟩ }

/-- The initial `App` state (src: App.tsx `useState` initializers). -/
def initState : AppState :=
  { loading := false, imageLoading := false, ticketData := none,
    ticketImage := none, ticketId := none, error := none,
    isEditing := false, isCustomImage := false, urlId := none }

/-- Whether a call event is an image-generation request. -/
def CallEvent.isImageReq : CallEvent → Bool
  | .imageCall _ => true
  | _ => false

/-- Database contents with one row already stored under id `"A"`, used by
the concrete save evaluations. -/
def dbBefore : List DbRow := [⟨"A", mkSample "Keep", "img0"⟩]

/-- An app state in which the record of row `"A"` is loaded and
`ticketId` is `"A"`, used by the concrete save evaluations. -/
def stateBefore : AppState :=
  { initState with ticketData := some (mkSample "Keep"),
                   ticketImage := some "img0",
                   ticketId := some "A", urlId := some "A" }

/-! Theorems settling the claims. -/

/-- Claim C1 (counterexample): the claim that the final committed state
contains only the second run's results regardless of arrival order is
false.  Exhibit a complete interleaving of two overlapping
`handleGenerate` runs — the second run starts right after the first run's
reset segment, so while the first run's responses are still outstanding —
in which the first run's responses all resolve after the second run has
finished: the final `ticketData`, `ticketImage` and `ticketId` are all
the first run's, and the two runs' data differ. -/
theorem c1_overlapping_runs_counterexample :
    validOverlap 4 4 [false, true, true, true, true, false, false, false] = true ∧
    (execSched (runScript (mkSample "Run One") "img1" "tid1")
        (runScript (mkSample "Run Two") "img2" "tid2")
        [false, true, true, true, true, false, false, false] initState).ticketData =
      some (mkSample "Run One") ∧
    (execSched (runScript (mkSample "Run One") "img1" "tid1")
        (runScript (mkSample "Run Two") "img2" "tid2")
        [false, true, true, true, true, false, false, false] initState).ticketImage =
      some "img1" ∧
    (execSched (runScript (mkSample "Run One") "img1" "tid1")
        (runScript (mkSample "Run Two") "img2" "tid2")
        [false, true, true, true, true, false, false, false] initState).ticketId =
      some "tid1" ∧
    mkSample "Run One" ≠ mkSample "Run Two" :=
  ⟨by decide, rfl, rfl, rfl, by decide⟩

/-- Claim C1 (amended): `handleGenerate` carries no run identity, so the
final committed state is decided by arrival order, not by which run
started last.  For any two overlapping runs: when the second run's
responses resolve after the first run's, the final state holds the second
run's results, and when the first run's responses resolve after the second
run has finished, the final state holds the first run's results. -/
theorem c1_last_arrival_wins (d1 d2 : TicketData) (i1 i2 t1 t2 : String)
    (s : AppState) :
    (validOverlap 4 4 [false, true, false, false, false, true, true, true] = true ∧
      (execSched (runScript d1 i1 t1) (runScript d2 i2 t2)
          [false, true, false, false, false, true, true, true] s).ticketData = some d2 ∧
      (execSched (runScript d1 i1 t1) (runScript d2 i2 t2)
          [false, true, false, false, false, true, true, true] s).ticketImage = some i2 ∧
      (execSched (runScript d1 i1 t1) (runScript d2 i2 t2)
          [false, true, false, false, false, true, true, true] s).ticketId = some t2) ∧
    (validOverlap 4 4 [false, true, true, true, true, false, false, false] = true ∧
      (execSched (runScript d1 i1 t1) (runScript d2 i2 t2)
          [false, true, true, true, true, false, false, false] s).ticketData = some d1 ∧
      (execSched (runScript d1 i1 t1) (runScript d2 i2 t2)
          [false, true, true, true, true, false, false, false] s).ticketImage = some i1 ∧
      (execSched (runScript d1 i1 t1) (runScript d2 i2 t2)
          [false, true, true, true, true, false, false, false] s).ticketId = some t1) :=
  ⟨⟨by decide, rfl, rfl, rfl⟩, ⟨by decide, rfl, rfl, rfl⟩⟩

/-- Claim C2 (counterexample): the claim that a save caused by a mood
remix overwrites the stored content under the existing id and leaves the
in-state id stable is false.  With a record already stored and held under
id `"A"`, a mood remix whose save mints fresh id `"B"` leaves the state id
`"B"` ≠ `"A"`, and the store now has a second row under `"B"` while row
`"A"` is untouched rather than overwritten. -/
theorem c2_id_not_stable_counterexample :
    (handleMoodSelect
        ⟨"img1", .ok (saveTicketToDb dbBefore "B" (mkSample "Keep") "img1").1⟩
        "dreamy" stateBefore).1.ticketId = some "B" ∧
    (some "B" : Option String) ≠ some "A" ∧
    (saveTicketToDb dbBefore "B" (mkSample "Keep") "img1").2 =
      [⟨"A", mkSample "Keep", "img0"⟩, ⟨"B", mkSample "Keep", "img1"⟩] :=
  ⟨rfl, by decide, rfl⟩

/-- Claim C2 (amended): both save call sites pass a record that carries no
id, so every save — the one in a mood remix and the one in an edit
regeneration — inserts a new row under a freshly minted id; the state's
`ticketId` is replaced by the fresh id (the edit path having cleared it
first), rather than staying stable. -/
theorem c2_fresh_id_on_every_save (db : List DbRow) (fresh img mood : String)
    (s : AppState) (d : TicketData) (p : AiPrompts)
    (hd : s.ticketData = some d) (hp : d.aiPrompts = some p)
    (hne : p.backgroundPrompt ≠ "") (hid : strTruthy s.ticketId = true)
    (hfresh : fresh ≠ "") (himg : img ≠ "") :
    (handleMoodSelect ⟨img, .ok (saveTicketToDb db fresh d img).1⟩ mood s).1.ticketId =
      some fresh ∧
    (saveTicketToDb db fresh d img).2 = db ++ [⟨fresh, d, img⟩] ∧
    (handleGenerate ⟨.ok d, img, .ok (saveTicketToDb db fresh d img).1⟩ none s).1.ticketId =
      some fresh := by
  refine ⟨?_, rfl, ?_⟩
  · rcases htid : s.ticketId with _ | tid
    · rw [htid] at hid
      simp [strTruthy] at hid
    · have htne : tid ≠ "" := by
        rw [htid] at hid
        simpa [strTruthy] using hid
      simp [handleMoodSelect, hd, hp, hne, htid, htne, strTruthy, saveTicketToDb,
        hfresh]
  · have hpr : promptTruthy d.aiPrompts = true := by simp [promptTruthy, hp, hne]
    simp [handleGenerate, strTruthy, obtainedImage, hpr, himg, saveTicketToDb,
      hfresh]

/-- Claim C2 (witness for the amended theorem), at the concrete store and
state of the counterexample. -/
theorem c2_fresh_id_on_every_save_witness :
    (handleMoodSelect
        ⟨"img1", .ok (saveTicketToDb dbBefore "B" (mkSample "Keep") "img1").1⟩
        "dreamy" stateBefore).1.ticketId = some "B" ∧
    (saveTicketToDb dbBefore "B" (mkSample "Keep") "img1").2 =
      dbBefore ++ [⟨"B", mkSample "Keep", "img1"⟩] := by
  have h := c2_fresh_id_on_every_save dbBefore "B" "img1" "dreamy" stateBefore
    (mkSample "Keep") ⟨"a dreamy stage with lights", "holographic ticket art"⟩
    rfl rfl (by decide) (by decide) (by decide) (by decide)
  exact ⟨h.1, h.2.1⟩

/-- Claim C3: in every `handleGenerate` run, the save call is issued if
and only if metadata was obtained and the run's resolved image
(`finalImage`) is non-empty; every issued save carries a non-empty image
(so an image-less record is never persisted); and when the save resolves
to a truthy id, both the state id and the shareable URL take that id. -/
theorem c3_save_iff_metadata_and_nonempty_image (env : GenEnv)
    (bg : Option String) (s : AppState) :
    ((∃ d img, CallEvent.saveCall d img ∈ (handleGenerate env bg s).2) ↔
      (∃ d, env.metadataResult = .ok d ∧ obtainedImage env bg d ≠ "")) ∧
    (∀ d img, CallEvent.saveCall d img ∈ (handleGenerate env bg s).2 → img ≠ "") ∧
    (∀ d img tid, CallEvent.saveCall d img ∈ (handleGenerate env bg s).2 →
      env.saveResult = .ok (some tid) → tid ≠ "" →
      (handleGenerate env bg s).1.ticketId = some tid ∧
      (handleGenerate env bg s).1.urlId = some tid) := by
  rcases env with ⟨mres, ires, sres⟩
  cases mres with
  | error e => simp [handleGenerate]
  | ok d =>
    by_cases hbg : strTruthy bg
    · rcases bg with _ | b
      · simp [strTruthy] at hbg
      · have hbne : b ≠ "" := by simpa [strTruthy] using hbg
        cases sres with
        | error e2 =>
          simp [handleGenerate, strTruthy, hbne, obtainedImage]
        | ok r =>
          rcases r with _ | rs
          · simp [handleGenerate, strTruthy, hbne, obtainedImage]
          · by_cases hrs : rs = "" <;>
              simp [handleGenerate, strTruthy, hbne, obtainedImage, hrs]
    · have hbg0 : bg = none ∨ bg = some "" := by
        rcases bg with _ | b
        · exact Or.inl rfl
        · refine Or.inr ?_
          have hb : b = "" := by
            by_contra hb
            exact hbg (by simp [strTruthy, hb])
          rw [hb]
      have main : ∀ bg0 : Option String, bg0 = none ∨ bg0 = some "" →
          ((∃ d2 img, CallEvent.saveCall d2 img ∈
              (handleGenerate ⟨.ok d, ires, sres⟩ bg0 s).2) ↔
            (∃ d2, (Except.ok d : Except String TicketData) = .ok d2 ∧
              obtainedImage ⟨.ok d, ires, sres⟩ bg0 d2 ≠ "")) ∧
          (∀ d2 img, CallEvent.saveCall d2 img ∈
            (handleGenerate ⟨.ok d, ires, sres⟩ bg0 s).2 → img ≠ "") ∧
          (∀ d2 img tid, CallEvent.saveCall d2 img ∈
              (handleGenerate ⟨.ok d, ires, sres⟩ bg0 s).2 →
            (sres : Except String (Option String)) = .ok (some tid) → tid ≠ "" →
            (handleGenerate ⟨.ok d, ires, sres⟩ bg0 s).1.ticketId = some tid ∧
            (handleGenerate ⟨.ok d, ires, sres⟩ bg0 s).1.urlId = some tid) := by
        intro bg0 h0
        by_cases hpr : promptTruthy d.aiPrompts
        · by_cases hires : ires = ""
          · rcases h0 with h0 | h0 <;> subst h0 <;>
              simp [handleGenerate, strTruthy, obtainedImage, hpr, hires]
          · cases sres with
            | error e2 =>
              rcases h0 with h0 | h0 <;> subst h0 <;>
                simp [handleGenerate, strTruthy, obtainedImage, hpr, hires]
            | ok r =>
              rcases r with _ | rs
              · rcases h0 with h0 | h0 <;> subst h0 <;>
                  simp [handleGenerate, strTruthy, obtainedImage, hpr, hires]
              · by_cases hrs : rs = "" <;>
                  (rcases h0 with h0 | h0 <;> subst h0 <;>
                    simp [handleGenerate, strTruthy, obtainedImage, hpr, hires, hrs])
        · rcases h0 with h0 | h0 <;> subst h0 <;>
            simp [handleGenerate, strTruthy, obtainedImage, hpr]
      exact main bg hbg0

/-- Claim C3 (witness): a run whose metadata succeeds, whose AI image is
non-empty and whose save returns id `"tidW"` ends with that id in both the
state and the shareable URL. -/
theorem c3_save_iff_metadata_and_nonempty_image_witness :
    (handleGenerate ⟨.ok (mkSample "W"), "imgW", .ok (some "tidW")⟩ none
        initState).1.ticketId = some "tidW" ∧
    (handleGenerate ⟨.ok (mkSample "W"), "imgW", .ok (some "tidW")⟩ none
        initState).1.urlId = some "tidW" :=
  (c3_save_iff_metadata_and_nonempty_image
      ⟨.ok (mkSample "W"), "imgW", .ok (some "tidW")⟩ none initState).2.2
    (mkSample "W") "imgW" "tidW" (by decide) rfl (by decide)

/-- Claim C4: when metadata generation fails — `generateTicketMetadata`
throws because the upstream response has no usable text, or the parse
throws — the run ends failed: the error's message (or the generic
fallback when the message is empty) is surfaced, `ticketData` stays
`null`, `ticketImage` `undefined`, `ticketId` `null`, loading ends, and
no image or save call is made. -/
theorem c4_metadata_failure_is_terminal (menv : MetadataEnv) (env : GenEnv)
    (bg : Option String) (s : AppState) (e : String)
    (hm : generateTicketMetadata menv = .error e)
    (henv : env.metadataResult = generateTicketMetadata menv) :
    (handleGenerate env bg s).1.ticketData = none ∧
    (handleGenerate env bg s).1.ticketImage = none ∧
    (handleGenerate env bg s).1.ticketId = none ∧
    (handleGenerate env bg s).1.error = some (surfacedError e) ∧
    (handleGenerate env bg s).1.loading = false ∧
    (handleGenerate env bg s).2 = [.metadataCall] := by
  have h : env.metadataResult = .error e := henv.trans hm
  simp [handleGenerate, h]

/-- Claim C4 (witness): a run whose upstream response carried no text ends
with no ticket data and the raw error message surfaced. -/
theorem c4_metadata_failure_is_terminal_witness :
    (handleGenerate ⟨.error "No text response from Gemini", "", .ok none⟩ none
        initState).1.ticketData = none ∧
    (handleGenerate ⟨.error "No text response from Gemini", "", .ok none⟩ none
        initState).1.error = some "No text response from Gemini" := by
  have h := c4_metadata_failure_is_terminal ⟨none, .ok (mkSample "x")⟩
    ⟨.error "No text response from Gemini", "", .ok none⟩ none initState
    "No text response from Gemini" rfl rfl
  exact ⟨h.1, h.2.2.2.1⟩

/-- Claim C5: the print action opens a print document — rendered with
`forPrint = true`, under which the watermark overlay is never shown — only
in the `unlocked` phase; in `locked`, `verifying` and
`verification-failed` it is a no-op that leaves the state unchanged. -/
theorem c5_print_only_when_unlocked (env : PrintEnv) (s : DisplayState) :
    (phase s ≠ .unlocked → handlePrint env s = s) ∧
    (phase s = .unlocked → env.contentFound = true → env.popupAllowed = true →
      handlePrint env s = { s with printedDocs := s.printedDocs ++ [true] } ∧
      ∀ hw : Bool, watermarkVisible true hw = false) := by
  have hp : phase s = .unlocked ↔ s.isUnlocked = true := by
    unfold phase
    split_ifs <;> simp_all
  constructor
  · intro h
    have hu : s.isUnlocked = false := by
      rcases Bool.eq_false_or_eq_true s.isUnlocked with h2 | h2
      · exact absurd (hp.mpr h2) h
      · exact h2
    simp [handlePrint, hu]
  · intro h hc hpop
    have hu := hp.mp h
    refine ⟨?_, fun hw => by simp [watermarkVisible]⟩
    simp [handlePrint, hu, hc, hpop]

/-- Claim C5 (witness): in the unlocked state with the source element
present and the popup allowed, printing appends one non-watermarked
document. -/
theorem c5_print_only_when_unlocked_witness :
    handlePrint ⟨true, true⟩ ⟨true, false, none, []⟩ =
      ⟨true, false, none, [true]⟩ :=
  ((c5_print_only_when_unlocked ⟨true, true⟩ ⟨true, false, none, []⟩).2
    (by decide) rfl rfl).1

/-- Claim C6: a submission that supplies a truthy custom background never
issues an image-generation request, and — whenever metadata generation
succeeds — the committed image is the supplied custom image, marked as
custom, so it is never replaced by an AI-generated one during that
submission. -/
theorem c6_custom_background_adopted (env : GenEnv) (bg : Option String)
    (s : AppState) (hbg : strTruthy bg = true) :
    (∀ p, CallEvent.imageCall p ∉ (handleGenerate env bg s).2) ∧
    (∀ d, env.metadataResult = .ok d →
      (handleGenerate env bg s).1.ticketImage = bg ∧
      (handleGenerate env bg s).1.isCustomImage = true) := by
  rcases env with ⟨mres, ires, sres⟩
  rcases bg with _ | b
  · simp [strTruthy] at hbg
  · have hbne : b ≠ "" := by simpa [strTruthy] using hbg
    cases mres with
    | error e => simp [handleGenerate]
    | ok d =>
      cases sres with
      | error e2 =>
        constructor
        · intro p
          simp [handleGenerate, strTruthy, hbne, obtainedImage]
        · intro d2 hd2
          simp at hd2
          subst hd2
          simp [handleGenerate, strTruthy, hbne, obtainedImage]
      | ok r =>
        constructor
        · intro p
          rcases r with _ | rs
          · simp [handleGenerate, strTruthy, hbne, obtainedImage]
          · by_cases hrs : rs = "" <;>
              simp [handleGenerate, strTruthy, hbne, obtainedImage, hrs]
        · intro d2 hd2
          simp at hd2
          subst hd2
          rcases r with _ | rs
          · simp [handleGenerate, strTruthy, hbne, obtainedImage]
          · by_cases hrs : rs = "" <;>
              simp [handleGenerate, strTruthy, hbne, obtainedImage, hrs]

/-- Claim C6 (witness): a concrete run with custom background
`"custom.png"` commits exactly that image and flags it custom. -/
theorem c6_custom_background_adopted_witness :
    (handleGenerate ⟨.ok (mkSample "C"), "unused", .ok (some "tidC")⟩
        (some "custom.png") initState).1.ticketImage = some "custom.png" ∧
    (handleGenerate ⟨.ok (mkSample "C"), "unused", .ok (some "tidC")⟩
        (some "custom.png") initState).1.isCustomImage = true :=
  (c6_custom_background_adopted ⟨.ok (mkSample "C"), "unused", .ok (some "tidC")⟩
    (some "custom.png") initState (by decide)).2 (mkSample "C") rfl

/-- Claim C7: a mood remix on a record whose metadata holds a non-empty
background prompt issues exactly one image request, whose prompt is the
stored prompt with the mood clause naming the selected mood appended; the
record's metadata (`ticketData`, hence `eventDetails` and every other
field) is unchanged and only the image is replaced. -/
theorem c7_mood_remix_replaces_only_image (env : MoodEnv) (mood : String)
    (s : AppState) (d : TicketData) (p : AiPrompts)
    (hd : s.ticketData = some d) (hp : d.aiPrompts = some p)
    (hne : p.backgroundPrompt ≠ "") :
    (handleMoodSelect env mood s).2.filter CallEvent.isImageReq =
      [.imageCall (moodPrompt p.backgroundPrompt mood)] ∧
    (handleMoodSelect env mood s).1.ticketData = s.ticketData ∧
    (handleMoodSelect env mood s).1.ticketImage = some env.imageResult := by
  rcases env with ⟨ires, sres⟩
  rcases htid : s.ticketId with _ | tid
  · simp [handleMoodSelect, hd, hp, hne, htid, strTruthy, CallEvent.isImageReq]
  · by_cases htne : tid = ""
    · simp [handleMoodSelect, hd, hp, hne, htid, htne, strTruthy,
        CallEvent.isImageReq]
    · cases sres with
      | error e =>
        simp [handleMoodSelect, hd, hp, hne, htid, htne, strTruthy,
          CallEvent.isImageReq]
      | ok r =>
        rcases r with _ | rs
        · simp [handleMoodSelect, hd, hp, hne, htid, htne, strTruthy,
            CallEvent.isImageReq]
        · by_cases hrs : rs = "" <;>
            simp [handleMoodSelect, hd, hp, hne, htid, htne, hrs, strTruthy,
              CallEvent.isImageReq]

/-- Claim C7 (witness): a concrete mood remix issues exactly the
mood-augmented image request. -/
theorem c7_mood_remix_replaces_only_image_witness :
    (handleMoodSelect ⟨"imgM", .ok none⟩ "dreamy"
        { initState with ticketData := some (mkSample "M") }).2.filter
          CallEvent.isImageReq =
      [.imageCall (moodPrompt "a dreamy stage with lights" "dreamy")] :=
  (c7_mood_remix_replaces_only_image ⟨"imgM", .ok none⟩ "dreamy"
    { initState with ticketData := some (mkSample "M") } (mkSample "M")
    ⟨"a dreamy stage with lights", "holographic ticket art"⟩ rfl rfl
    (by decide)).1

/-- Claim C8: when the image response contains no inline image data — only
refusal text, or nothing — `generateTicketImage` returns the empty string
instead of raising, and the caller's rendering then falls back to the
solid gradient background. -/
theorem c8_image_refusal_empty_result (env : ImageEnv) (parts : List GenPart)
    (primary secondary : String)
    (hresp : env.response = .ok parts) (hno : firstInline parts = none) :
    generateTicketImage env = "" ∧
    ticketBackground (some (generateTicketImage env)) primary secondary =
      .gradient primary secondary := by
  have h1 : generateTicketImage env = "" := by
    simp [generateTicketImage, hresp, hno]
  exact ⟨h1, by simp [h1, ticketBackground, strTruthy]⟩

/-- Claim C8 (witness): a refusal response made of text only yields the
empty string and the gradient fallback. -/
theorem c8_image_refusal_empty_result_witness :
    generateTicketImage ⟨.ok [.text "I cannot generate that image"]⟩ = "" ∧
    ticketBackground (some "") "#FF4FA3" "#C9A2FF" =
      .gradient "#FF4FA3" "#C9A2FF" := by
  have h := c8_image_refusal_empty_result
    ⟨.ok [.text "I cannot generate that image"]⟩
    [.text "I cannot generate that image"] "#FF4FA3" "#C9A2FF" rfl rfl
  exact ⟨h.1, h.2⟩

/-- Claim C9: `parseSeatInfo` is a pure function into a tagged union: it
returns the raw-text fallback exactly when none of the Section/Row/Seat
regexes matches, and otherwise the structured variant whose components are
precisely the three labelled captures. -/
theorem c9_seat_parse_tagged_union (info : String) :
    (parseSeatInfo info = .raw info ↔
      matchSec info = none ∧ matchRow info = none ∧ matchSeat info = none) ∧
    (matchSec info ≠ none ∨ matchRow info ≠ none ∨ matchSeat info ≠ none →
      parseSeatInfo info =
        .structured (matchSec info) (matchRow info) (matchSeat info)) := by
  rcases hsec : matchSec info with _ | v1 <;>
  rcases hrow : matchRow info with _ | v2 <;>
  rcases hseat : matchSeat info with _ | v3 <;>
    simp [parseSeatInfo, hsec, hrow, hseat]

/-- Claim C9 (witness): a fully labelled seat string parses to the
structured triple. -/
theorem c9_seat_parse_tagged_union_witness :
    parseSeatInfo "Section 110, Row B, Seat 14" =
      .structured (some "110") (some "B") (some "14") := by
  have h := (c9_seat_parse_tagged_union "Section 110, Row B, Seat 14").2
    (Or.inl (by decide))
  rw [h]
  decide

/-- Claim C10: font resolution is total and closed — every hint, including
an absent one, maps into the fixed set of supported font classes — and a
hint containing none of the recognized keywords gets the Playfair Display
default for headlines and the Montserrat default for body text. -/
theorem c10_font_resolution_total_closed (fontName : Option String)
    (role : FontRole) :
    getFontFamily fontName role ∈ supportedFontClasses ∧
    (recognizedFontKeyword (strLower (fontName.getD "")) = false →
      (role = .headline → getFontFamily fontName role = "font-[Playfair_Display]") ∧
      (role = .body → getFontFamily fontName role = "font-[Montserrat]")) := by
  constructor
  · cases role <;> (dsimp only [getFontFamily]; split_ifs <;> decide)
  · intro h
    unfold recognizedFontKeyword at h
    simp only [Bool.or_eq_false_iff] at h
    obtain ⟨⟨⟨⟨⟨⟨h1, h2⟩, h3⟩, h4⟩, h5⟩, h6⟩, h7⟩ := h
    cases role <;> simp [getFontFamily, h1, h2, h3, h4, h5, h6, h7]

/-- Claim C10 (witness): an unrecognized hint falls back to the Montserrat
body default, and an absent hint to the Playfair Display headline
default. -/
theorem c10_font_resolution_total_closed_witness :
    getFontFamily (some "Comic Sans") .body = "font-[Montserrat]" ∧
    getFontFamily none .headline = "font-[Playfair_Display]" :=
  ⟨((c10_font_resolution_total_closed (some "Comic Sans") .body).2 (by decide)).2 rfl,
   ((c10_font_resolution_total_closed none .headline).2 (by decide)).1 rfl⟩

end ForeverTicket



